import Mathlib

/-!
Verification of the document text-extraction and validation pipeline of
`src/backend/app.py` (the FastAPI handler `process_job_description`).

The pipeline is embedded shallowly:
* the three third-party extraction routines the handler calls
  (`bytes.decode("utf-8")`, `pdfminer.high_level.extract_text`,
  `docx.Document` followed by reading `doc.paragraphs`) are external
  libraries, so they are modelled as oracle parameters of the pipeline: a
  routine that raises an exception on a given byte content is one that
  returns `none` there;
* Python's `str.strip()` is embedded as `pyStrip` (drop whitespace from both
  ends of the character list);
* an HTTP response produced by the handler is either the JSON body
  `{"jd_data": ..., "jd_id": ...}` or an `HTTPException` with a status code
  and a detail string.
-/

namespace JDPipeline

/-- The three classified failure kinds of the normalizer. -/
inductive FailureKind where
  | UnsupportedType
  | ExtractionError
  | EmptyContent
deriving DecidableEq, Repr

/-- Outcome of normalization: extracted text, or a classified failure. -/
inductive ExtractionResult where
  | Success (text : String)
  | Failure (kind : FailureKind)
deriving DecidableEq, Repr

/-- Oracles for the three third-party extraction routines called by
`process_job_description`.  `none` models the routine raising an exception
on that byte content (invalid UTF-8, corrupt PDF, corrupt Word structure);
`docxParse` returns the texts of the document's paragraphs in document
order, as `doc.paragraphs` does. -/
structure Parsers where
  decodeUtf8 : List Nat → Option String
  pdfExtract : List Nat → Option String
  docxParse : List Nat → Option (List String)

/-- The allow-list of `src/backend/app.py` lines 39-44 (`supported_types`). -/
def supported_types : List String :=
  ["text/plain",
   "application/pdf",
   "application/msword",
   "application/vnd.openxmlformats-officedocument.wordprocessingml.document"]

/-- Python's `str.strip()`: remove leading and trailing whitespace. -/
def pyStrip (s : String) : String :=
  String.mk (((s.data.dropWhile Char.isWhitespace).reverse.dropWhile
    Char.isWhitespace).reverse)

/-- Which arm of the `if/elif/elif/else` chain of lines 52-60 a declared
media type selects. -/
inductive Branch where
  | plainText
  | pdf
  | word
  | fallback
deriving DecidableEq, Repr

/-- The dispatch chain of lines 52-60, by declared type (no content
sniffing): `text/plain`, then `application/pdf`, then the two Word types,
else the fallback `raise HTTPException(400, "Unsupported file format")`. -/
def dispatchBranch (contentType : String) : Branch :=
  if contentType = "text/plain" then Branch.plainText
  else if contentType = "application/pdf" then Branch.pdf
  else if contentType = "application/msword" ∨
      contentType = "application/vnd.openxmlformats-officedocument.wordprocessingml.document" then
    Branch.word
  else Branch.fallback

/-- The body of the `try` block, lines 50-60, before stripping: run the
branch-appropriate extraction routine.  `none` is a raised exception
(including the fallback branch, whose `HTTPException` is itself swallowed by
the `except Exception` clause of line 61).  The Word branch joins the
paragraph texts with `"\n"` as `"\n".join(para.text for para in
doc.paragraphs)` does. -/
def rawExtract (P : Parsers) (contentType : String) (content : List Nat) :
    Option String :=
  match dispatchBranch contentType with
  | Branch.plainText => P.decodeUtf8 content
  | Branch.pdf => P.pdfExtract content
  | Branch.word => (P.docxParse content).map (String.intercalate "\n")
  | Branch.fallback => none

/-- The normalizer: lines 46-67 of `src/backend/app.py`.  Reject a declared
type outside the allow-list before touching the content; run the dispatched
extraction with every exception converted to `ExtractionError`; strip the
extracted text; reject it as `EmptyContent` when the stripped text is empty
(`if not text`). -/
def normalize (P : Parsers) (contentType : String) (content : List Nat) :
    ExtractionResult :=
  if contentType ∉ supported_types then
    ExtractionResult.Failure FailureKind.UnsupportedType
  else
    match rawExtract P contentType content with
    | none => ExtractionResult.Failure FailureKind.ExtractionError
    | some extracted =>
      if pyStrip extracted = "" then
        ExtractionResult.Failure FailureKind.EmptyContent
      else ExtractionResult.Success (pyStrip extracted)

/-- An HTTP outcome of the `/process-jd/` endpoint: the success body
`{"jd_data": jd_data, "jd_id": jd_id}`, or an `HTTPException` with a status
code and a detail string. -/
inductive HttpResponse where
  | ok (jd_data : String) (jd_id : Int)
  | error (status : Nat) (detail : String)
deriving DecidableEq, Repr

/-- The whole handler `process_job_description`, lines 37-75.  `summarize`
is the oracle for the external collaborator `summarize_job_description`:
`Except.error e` models it raising an exception whose `str(e)` is `e`.  The
three normalization failures map to the `HTTPException(400, ...)` of lines
48, 63 and 67; a summarizer exception maps to the
`HTTPException(500, f"Internal server error: {str(e)}")` of line 75. -/
def process_job_description (P : Parsers)
    (summarize : String → Except String (String × Int))
    (contentType : String) (content : List Nat) : HttpResponse :=
  match normalize P contentType content with
  | ExtractionResult.Failure FailureKind.UnsupportedType =>
    HttpResponse.error 400 "Unsupported file format"
  | ExtractionResult.Failure FailureKind.ExtractionError =>
    HttpResponse.error 400 "Failed to extract text from file"
  | ExtractionResult.Failure FailureKind.EmptyContent =>
    HttpResponse.error 400 "File content is empty"
  | ExtractionResult.Success text =>
    match summarize text with
    | Except.ok (jd_data, jd_id) => HttpResponse.ok jd_data jd_id
    | Except.error e =>
      HttpResponse.error 500 ("Internal server error: " ++ e)

/-! ### Helper lemmas about `pyStrip` -/

/-- An element that fails `p` survives `dropWhile p`. -/
theorem mem_dropWhile_of_not {α : Type} (p : α → Bool) {c : α}
    (hc : p c = false) :
    ∀ l : List α, c ∈ l → c ∈ l.dropWhile p := by
  intro l hl
  induction l with
  | nil => cases hl
  | cons x xs ih =>
    by_cases hx : p x = true
    · rw [List.dropWhile_cons_of_pos hx]
      cases List.mem_cons.mp hl with
      | inl h => rw [h] at hc; rw [hx] at hc; cases hc
      | inr h => exact ih h
    · rw [List.dropWhile_cons_of_neg hx]
      exact hl

/-- A list all of whose elements satisfy `p` is emptied by `dropWhile p`. -/
theorem dropWhile_eq_nil_of_all {α : Type} (p : α → Bool) :
    ∀ l : List α, (∀ c ∈ l, p c = true) → l.dropWhile p = [] := by
  intro l hl
  induction l with
  | nil => rfl
  | cons x xs ih =>
    rw [List.dropWhile_cons_of_pos (hl x (List.mem_cons_self x xs))]
    exact ih fun c hc => hl c (List.mem_cons_of_mem x hc)

/-- A non-empty stripped string contains a non-whitespace character. -/
theorem pyStrip_exists_not_ws {s : String} (h : pyStrip s ≠ "") :
    ∃ c ∈ (pyStrip s).data, c.isWhitespace = false := by
  have hne :
      ((s.data.dropWhile Char.isWhitespace).reverse.dropWhile
        Char.isWhitespace) ≠ [] := by
    intro h0
    apply h
    simp only [pyStrip, h0, List.reverse_nil]
  refine ⟨((s.data.dropWhile Char.isWhitespace).reverse.dropWhile
    Char.isWhitespace).head hne, ?_, ?_⟩
  · show _ ∈ (pyStrip s).data
    simp only [pyStrip]
    exact List.mem_reverse.mpr (List.head_mem hne)
  · exact List.head_dropWhile_not Char.isWhitespace _ hne

/-- A string with a non-whitespace character strips to a non-empty string. -/
theorem pyStrip_ne_empty_of_exists {s : String}
    (h : ∃ c ∈ s.data, c.isWhitespace = false) : pyStrip s ≠ "" := by
  obtain ⟨c, hc, hws⟩ := h
  intro h0
  have hdata : (pyStrip s).data = [] := by rw [h0]
  have h1 : c ∈ s.data.dropWhile Char.isWhitespace :=
    mem_dropWhile_of_not Char.isWhitespace hws s.data hc
  have h2 : c ∈ (s.data.dropWhile Char.isWhitespace).reverse.dropWhile
      Char.isWhitespace :=
    mem_dropWhile_of_not Char.isWhitespace hws _ (List.mem_reverse.mpr h1)
  have h3 : c ∈ (pyStrip s).data := by
    simp only [pyStrip]
    exact List.mem_reverse.mpr h2
  rw [hdata] at h3
  cases h3

/-- A whitespace-only string strips to the empty string. -/
theorem pyStrip_eq_empty_of_all {s : String}
    (h : ∀ c ∈ s.data, c.isWhitespace = true) : pyStrip s = "" := by
  simp only [pyStrip, dropWhile_eq_nil_of_all Char.isWhitespace s.data h,
    List.reverse_nil, List.dropWhile_nil]

/-- Unfolding lemma for `normalize` on a supported type whose extraction
succeeds with a string stripping to something non-empty. -/
theorem normalize_of_rawExtract_some {P : Parsers} {contentType : String}
    {content : List Nat} {s : String} (hm : contentType ∈ supported_types)
    (hr : rawExtract P contentType content = some s)
    (hne : pyStrip s ≠ "") :
    normalize P contentType content =
      ExtractionResult.Success (pyStrip s) := by
  rw [normalize, if_neg (by simp [hm]), hr]
  dsimp only
  rw [if_neg hne]

/-- Unfolding lemma for `normalize` on a supported type whose extraction
succeeds with a string stripping to the empty string. -/
theorem normalize_of_rawExtract_some_empty {P : Parsers}
    {contentType : String} {content : List Nat} {s : String}
    (hm : contentType ∈ supported_types)
    (hr : rawExtract P contentType content = some s)
    (he : pyStrip s = "") :
    normalize P contentType content =
      ExtractionResult.Failure FailureKind.EmptyContent := by
  rw [normalize, if_neg (by simp [hm]), hr]
  dsimp only
  rw [if_pos he]

/-! ### Claim theorems -/

/-- C1: for every supported declared media type and every byte content, an
exception raised during decoding or parsing (the dispatched extraction
routine returning `none`) is caught and turned into
`Failure ExtractionError`; `normalize` always returns a classified result
and never propagates the raw exception. -/
theorem raw_exception_becomes_extraction_error (P : Parsers)
    (contentType : String) (content : List Nat)
    (hsupp : contentType ∈ supported_types)
    (hexc : rawExtract P contentType content = none) :
    normalize P contentType content =
      ExtractionResult.Failure FailureKind.ExtractionError := by
  rw [normalize, if_neg (by simp [hsupp]), hexc]

/-- Witness for C1 at a corrupt PDF (extractor raising): the bytes of a
truncated `%PDF` header under a PDF extractor that fails on them. -/
theorem raw_exception_becomes_extraction_error_witness :
    normalize ⟨fun _ => none, fun _ => none, fun _ => none⟩
        "application/pdf" [37, 80, 68, 70] =
      ExtractionResult.Failure FailureKind.ExtractionError :=
  raw_exception_becomes_extraction_error
    ⟨fun _ => none, fun _ => none, fun _ => none⟩
    "application/pdf" [37, 80, 68, 70] (by decide) (by decide)

/-- C2: whenever `normalize` returns `Success text`, the text is non-empty
and contains a non-whitespace character (it is never whitespace-only). -/
theorem success_text_nonempty (P : Parsers) (contentType : String)
    (content : List Nat) (t : String)
    (h : normalize P contentType content = ExtractionResult.Success t) :
    t ≠ "" ∧ ∃ c ∈ t.data, c.isWhitespace = false := by
  by_cases hm : contentType ∉ supported_types
  · rw [normalize, if_pos hm] at h
    cases h
  · rw [normalize, if_neg hm] at h
    cases hr : rawExtract P contentType content with
    | none => rw [hr] at h; cases h
    | some extracted =>
      rw [hr] at h
      dsimp only at h
      by_cases he : pyStrip extracted = ""
      · simp only [he, if_pos] at h
        cases h
      · rw [if_neg he] at h
        injection h with h1
        rw [← h1]
        exact ⟨he, pyStrip_exists_not_ws he⟩

/-- Witness for C2: a plain-text upload decoding to `" hello "` succeeds
with the non-empty, non-whitespace-only text `"hello"`. -/
theorem success_text_nonempty_witness :
    ("hello" : String) ≠ "" ∧
      ∃ c ∈ ("hello" : String).data, c.isWhitespace = false :=
  success_text_nonempty ⟨fun _ => some " hello ", fun _ => none, fun _ => none⟩
    "text/plain" [104] "hello" (by decide)

/-- C3: a declared media type outside the allow-list is rejected as
`Failure UnsupportedType`, and the result is the same whatever the content
bytes and whatever the parsers: the content is never read or parsed. -/
theorem unsupported_fast_reject (P Q : Parsers) (contentType : String)
    (content content2 : List Nat) (h : contentType ∉ supported_types) :
    normalize P contentType content =
        ExtractionResult.Failure FailureKind.UnsupportedType ∧
      normalize P contentType content = normalize Q contentType content2 := by
  constructor
  · rw [normalize, if_pos h]
  · rw [normalize, if_pos h, normalize, if_pos h]

/-- Witness for C3 at the declared type `image/png`. -/
theorem unsupported_fast_reject_witness :
    normalize ⟨fun _ => some "a", fun _ => some "b", fun _ => some ["c"]⟩
        "image/png" [1, 2, 3] =
        ExtractionResult.Failure FailureKind.UnsupportedType ∧
      normalize ⟨fun _ => some "a", fun _ => some "b", fun _ => some ["c"]⟩
          "image/png" [1, 2, 3] =
        normalize ⟨fun _ => none, fun _ => none, fun _ => none⟩
          "image/png" [9] :=
  unsupported_fast_reject
    ⟨fun _ => some "a", fun _ => some "b", fun _ => some ["c"]⟩
    ⟨fun _ => none, fun _ => none, fun _ => none⟩
    "image/png" [1, 2, 3] [9] (by decide)

/-- C4: for `text/plain` content whose UTF-8 decoding succeeds and contains
a non-whitespace character, `normalize` returns `Success` of exactly the
decoded text stripped of leading and trailing whitespace. -/
theorem plaintext_success (P : Parsers) (content : List Nat) (s : String)
    (hdec : P.decodeUtf8 content = some s)
    (hnws : ∃ c ∈ s.data, c.isWhitespace = false) :
    normalize P "text/plain" content =
      ExtractionResult.Success (pyStrip s) := by
  have hne := pyStrip_ne_empty_of_exists hnws
  have hraw : rawExtract P "text/plain" content = some s := by
    have h0 : rawExtract P "text/plain" content = P.decodeUtf8 content := rfl
    rw [h0, hdec]
  exact normalize_of_rawExtract_some (by decide) hraw hne

/-- Witness for C4: bytes decoding to `"  Dev role \n"` yield
`Success "Dev role"`. -/
theorem plaintext_success_witness :
    normalize ⟨fun _ => some "  Dev role \n", fun _ => none, fun _ => none⟩
        "text/plain" [32] =
      ExtractionResult.Success (pyStrip "  Dev role \n") :=
  plaintext_success ⟨fun _ => some "  Dev role \n", fun _ => none, fun _ => none⟩
    [32] "  Dev role \n" rfl (by decide)

/-- C5 counterexample: a well-formed Word document whose only paragraph is
the empty string.  The claim predicts `Success` of the trimmed
newline-joined paragraphs (here `Success ""`), but the code returns
`Failure EmptyContent`. -/
theorem word_all_empty_paragraphs_not_success :
    normalize ⟨fun _ => none, fun _ => none, fun _ => some [""]⟩
        "application/msword" [] =
        ExtractionResult.Failure FailureKind.EmptyContent ∧
      normalize ⟨fun _ => none, fun _ => none, fun _ => some [""]⟩
          "application/msword" [] ≠
        ExtractionResult.Success (pyStrip (String.intercalate "\n" [""])) := by
  constructor
  · decide
  · decide

/-- C5 as amended: for either declared Word type, when the Word parse
succeeds with paragraphs `paras` whose newline-joined concatenation
contains at least one non-whitespace character, `normalize` returns
`Success` of that concatenation trimmed of leading/trailing whitespace. -/
theorem word_paragraphs_success (P : Parsers) (contentType : String)
    (content : List Nat) (paras : List String)
    (hct : contentType = "application/msword" ∨
      contentType =
        "application/vnd.openxmlformats-officedocument.wordprocessingml.document")
    (hdoc : P.docxParse content = some paras)
    (hnws : ∃ c ∈ (String.intercalate "\n" paras).data,
      c.isWhitespace = false) :
    normalize P contentType content =
      ExtractionResult.Success (pyStrip (String.intercalate "\n" paras)) := by
  have hne := pyStrip_ne_empty_of_exists hnws
  cases hct with
  | inl h =>
    have hraw : rawExtract P "application/msword" content =
        some (String.intercalate "\n" paras) := by
      have h0 : rawExtract P "application/msword" content =
          (P.docxParse content).map (String.intercalate "\n") := rfl
      rw [h0, hdoc]
      rfl
    rw [h]
    exact normalize_of_rawExtract_some (by decide) hraw hne
  | inr h =>
    have hraw : rawExtract P
        "application/vnd.openxmlformats-officedocument.wordprocessingml.document"
        content = some (String.intercalate "\n" paras) := by
      have h0 : rawExtract P
          "application/vnd.openxmlformats-officedocument.wordprocessingml.document"
          content = (P.docxParse content).map (String.intercalate "\n") := rfl
      rw [h0, hdoc]
      rfl
    rw [h]
    exact normalize_of_rawExtract_some (by decide) hraw hne

/-- Witness for amended C5: paragraphs `["Line A", "Line B"]` yield
`Success "Line A\nLine B"`. -/
theorem word_paragraphs_success_witness :
    normalize ⟨fun _ => none, fun _ => none,
          fun _ => some ["Line A", "Line B"]⟩
        "application/msword" [] =
        ExtractionResult.Success
          (pyStrip (String.intercalate "\n" ["Line A", "Line B"])) ∧
      pyStrip (String.intercalate "\n" ["Line A", "Line B"]) =
        "Line A\nLine B" :=
  ⟨word_paragraphs_success
      ⟨fun _ => none, fun _ => none, fun _ => some ["Line A", "Line B"]⟩
      "application/msword" [] ["Line A", "Line B"] (Or.inl rfl) rfl
      (by decide),
    by decide⟩

/-- C6: a `text/plain` input whose valid UTF-8 decoding consists only of
whitespace characters yields `Failure EmptyContent` — not `Success` and
not `ExtractionError` (the equality to `EmptyContent` excludes both). -/
theorem whitespace_only_plaintext_empty (P : Parsers) (content : List Nat)
    (s : String) (hdec : P.decodeUtf8 content = some s)
    (hws : ∀ c ∈ s.data, c.isWhitespace = true) :
    normalize P "text/plain" content =
      ExtractionResult.Failure FailureKind.EmptyContent := by
  have hraw : rawExtract P "text/plain" content = some s := by
    have h0 : rawExtract P "text/plain" content = P.decodeUtf8 content := rfl
    rw [h0, hdec]
  exact normalize_of_rawExtract_some_empty (by decide) hraw
    (pyStrip_eq_empty_of_all hws)

/-- Witness for C6 at the spec's example, the decoded text `"   \n\t  "`. -/
theorem whitespace_only_plaintext_empty_witness :
    normalize ⟨fun _ => some "   \n\t  ", fun _ => none, fun _ => none⟩
        "text/plain" [32] =
      ExtractionResult.Failure FailureKind.EmptyContent :=
  whitespace_only_plaintext_empty
    ⟨fun _ => some "   \n\t  ", fun _ => none, fun _ => none⟩
    [32] "   \n\t  " rfl (by decide)

/-- C7 counterexample: after successful normalization of `"hello"`, a
summarizer raising an exception with message `"boom a"` produces the 500
response whose detail embeds that internal message, and changing only the
internal message changes the response — the internal error text IS exposed
to the caller, contradicting the claim's last clause. -/
theorem summarizer_error_text_exposed :
    process_job_description
        ⟨fun _ => some "hello", fun _ => none, fun _ => none⟩
        (fun _ => Except.error "boom a") "text/plain" [] =
        HttpResponse.error 500 "Internal server error: boom a" ∧
      process_job_description
          ⟨fun _ => some "hello", fun _ => none, fun _ => none⟩
          (fun _ => Except.error "boom a") "text/plain" [] ≠
        process_job_description
          ⟨fun _ => some "hello", fun _ => none, fun _ => none⟩
          (fun _ => Except.error "boom b") "text/plain" [] := by
  constructor
  · decide
  · decide

/-- C7 as amended: an exception from the downstream summarizer after
successful normalization is caught at the boundary and reported with
status 500 — distinct from the three 400 extraction failures — but its
detail string is `"Internal server error: "` followed by the exception's
own message, so the internal error text is included in the response. -/
theorem summarizer_exception_500 (P : Parsers)
    (summarize : String → Except String (String × Int))
    (contentType : String) (content : List Nat) (text e : String)
    (hn : normalize P contentType content = ExtractionResult.Success text)
    (hs : summarize text = Except.error e) :
    process_job_description P summarize contentType content =
      HttpResponse.error 500 ("Internal server error: " ++ e) := by
  rw [process_job_description, hn]
  dsimp only
  rw [hs]

/-- Witness for amended C7. -/
theorem summarizer_exception_500_witness :
    process_job_description
        ⟨fun _ => some "hello", fun _ => none, fun _ => none⟩
        (fun _ => Except.error "oops") "text/plain" [104] =
      HttpResponse.error 500 ("Internal server error: " ++ "oops") :=
  summarizer_exception_500
    ⟨fun _ => some "hello", fun _ => none, fun _ => none⟩
    (fun _ => Except.error "oops") "text/plain" [104] "hello" "oops"
    (by decide) rfl

/-- C8: the pipeline is deterministic and stateless — two calls with equal
declared media type and equal byte content (and the same parser and
summarizer collaborators) return equal classified results and equal HTTP
responses; nothing besides the arguments influences the outcome. -/
theorem normalize_deterministic (P : Parsers)
    (summarize : String → Except String (String × Int))
    (ct1 ct2 : String) (c1 c2 : List Nat) (hct : ct1 = ct2) (hc : c1 = c2) :
    normalize P ct1 c1 = normalize P ct2 c2 ∧
      process_job_description P summarize ct1 c1 =
        process_job_description P summarize ct2 c2 := by
  rw [hct, hc]
  exact ⟨rfl, rfl⟩

/-- Witness for C8 at a concrete repeated call. -/
theorem normalize_deterministic_witness :
    normalize ⟨fun _ => some "x", fun _ => none, fun _ => none⟩
        "text/plain" [120] =
      normalize ⟨fun _ => some "x", fun _ => none, fun _ => none⟩
        "text/plain" [120] ∧
      process_job_description ⟨fun _ => some "x", fun _ => none, fun _ => none⟩
          (fun t => Except.ok (t, 7)) "text/plain" [120] =
        process_job_description ⟨fun _ => some "x", fun _ => none, fun _ => none⟩
          (fun t => Except.ok (t, 7)) "text/plain" [120] :=
  normalize_deterministic ⟨fun _ => some "x", fun _ => none, fun _ => none⟩
    (fun t => Except.ok (t, 7)) "text/plain" "text/plain" [120] [120] rfl rfl

/-- C9: once the declared type passed the allow-list, the dispatch chain
selects exactly one of the three extraction branches and the fallback
branch is unreachable. -/
theorem dispatch_exhaustive (contentType : String)
    (h : contentType ∈ supported_types) :
    (dispatchBranch contentType = Branch.plainText ∨
        dispatchBranch contentType = Branch.pdf ∨
        dispatchBranch contentType = Branch.word) ∧
      dispatchBranch contentType ≠ Branch.fallback := by
  simp only [supported_types, List.mem_cons, List.not_mem_nil,
    or_false] at h
  rcases h with h | h | h | h <;> rw [h] <;> exact ⟨by decide, by decide⟩

/-- Witness for C9 at the declared type `application/pdf`. -/
theorem dispatch_exhaustive_witness :
    (dispatchBranch "application/pdf" = Branch.plainText ∨
        dispatchBranch "application/pdf" = Branch.pdf ∨
        dispatchBranch "application/pdf" = Branch.word) ∧
      dispatchBranch "application/pdf" ≠ Branch.fallback :=
  dispatch_exhaustive "application/pdf" (by decide)

/-- C10: the three normalization failure kinds are all signaled with HTTP
status 400 and are distinguishable only by their detail strings, while a
summarizer failure after successful normalization is signaled with
status 500. -/
theorem http_status_mapping (P : Parsers)
    (summarize : String → Except String (String × Int))
    (contentType : String) (content : List Nat) :
    (normalize P contentType content =
        ExtractionResult.Failure FailureKind.UnsupportedType →
      process_job_description P summarize contentType content =
        HttpResponse.error 400 "Unsupported file format") ∧
    (normalize P contentType content =
        ExtractionResult.Failure FailureKind.ExtractionError →
      process_job_description P summarize contentType content =
        HttpResponse.error 400 "Failed to extract text from file") ∧
    (normalize P contentType content =
        ExtractionResult.Failure FailureKind.EmptyContent →
      process_job_description P summarize contentType content =
        HttpResponse.error 400 "File content is empty") ∧
    (∀ text e,
      normalize P contentType content = ExtractionResult.Success text →
      summarize text = Except.error e →
      ∃ d, process_job_description P summarize contentType content =
        HttpResponse.error 500 d) := by
  refine ⟨fun h => ?_, fun h => ?_, fun h => ?_, fun text e h hs => ?_⟩
  · rw [process_job_description, h]
  · rw [process_job_description, h]
  · rw [process_job_description, h]
  · refine ⟨"Internal server error: " ++ e, ?_⟩
    rw [process_job_description, h]
    dsimp only
    rw [hs]

/-- Witness for C10 at an unsupported declared type. -/
theorem http_status_mapping_witness :
    process_job_description ⟨fun _ => none, fun _ => none, fun _ => none⟩
        (fun t => Except.ok (t, 1)) "image/png" [] =
      HttpResponse.error 400 "Unsupported file format" :=
  (http_status_mapping ⟨fun _ => none, fun _ => none, fun _ => none⟩
      (fun t => Except.ok (t, 1)) "image/png" []).1 (by decide)

end JDPipeline
